import Mathlib

/-!
Shallow embedding of the two burn-based MLP models in the trado repository:
the daily linear classifier (src/daily_linear_classifier/src/model.rs) and the
daily linear regressor (src/daily_linear_regression/src/model.rs).

Tensors of rank 2 are embedded as lists of rows over the rationals (the source
computes over backend floats; we use exact rationals), rank-1 tensors as lists.
Backend operations that panic on shape mismatch in burn (matmul, broadcast add
and sub) are embedded as Except-valued functions returning a shape-mismatch
error.  Randomness (dropout masks, parameter initialisation) is threaded as
explicit function arguments.
-/

namespace Trado

/-- A rank-2 tensor: a list of rows. -/
abbrev Matrix : Type := List (List ℚ)

/-- Error raised by burn tensor kernels when operand shapes are incompatible
(burn panics; we embed the panic as an Except error). -/
inductive TensorError where
  | shapeMismatch
  deriving DecidableEq, Repr

/-- Error raised by burn when a tensor's data buffer cannot be converted to a
plain vector (burn's DataError). -/
inductive DataError where
  | castError
  | typeMismatch
  deriving DecidableEq, Repr

/-- Dot product of two vectors (rows). -/
def dotProd (a b : List ℚ) : ℚ :=
  (List.zipWith (fun x y => x * y) a b).sum

/-- Number of rows of a matrix. -/
def numRows (A : Matrix) : ℕ := A.length

/-- Number of columns of a matrix, read off the first row. -/
def numCols (A : Matrix) : ℕ := (A.headD []).length

/-- The j-th column of a matrix. -/
def colOf (A : Matrix) (j : ℕ) : List ℚ :=
  A.map (fun r => r.getD j 0)

/-- Matrix product, entry (i,j) = sum over t of A[i][t] * B[t][j]; assumes the
inner dimensions agree (checked by matMul). -/
def matMulUnchecked (A B : Matrix) : Matrix :=
  A.map (fun r => (List.range (numCols B)).map (fun j => dotProd r (colOf B j)))

/-- Shape-checked matrix product: burn's matmul panics unless every row of A
has length equal to the number of rows of B. -/
def matMul (A B : Matrix) : Except TensorError Matrix :=
  if ∀ r ∈ A, r.length = B.length then .ok (matMulUnchecked A B)
  else .error .shapeMismatch

/-- Elementwise vector sum. -/
def vecAdd (a b : List ℚ) : List ℚ := List.zipWith (fun x y => x + y) a b

/-- Broadcast-add a bias vector to every row: burn's `+` of a [B,n] tensor and
a [n] bias panics unless the widths agree. -/
def addBias (A : Matrix) (b : List ℚ) : Except TensorError Matrix :=
  if ∀ r ∈ A, r.length = b.length then .ok (A.map (fun r => vecAdd r b))
  else .error .shapeMismatch

/-- burn's Linear layer: weight of shape [d_input, d_output], bias of shape
[d_output]. -/
structure LinearLayer where
  weight : Matrix
  bias : List ℚ
  deriving DecidableEq

/-- burn Linear::forward on a rank-2 input: input.matmul(weight) + bias. -/
def LinearLayer.forward (l : LinearLayer) (x : Matrix) : Except TensorError Matrix :=
  (matMul x l.weight).bind (fun y => addBias y l.bias)

/-- Build an r-by-c matrix from an entry function. -/
def buildMatrix (r c : ℕ) (f : ℕ → ℕ → ℚ) : Matrix :=
  (List.range r).map (fun i => (List.range c).map (fun j => f i j))

/-- LinearConfig::new(dIn, dOut).with_bias(true).init(device): the parameter
values are drawn by the backend initialiser, threaded here as the functions
wf (weight entries) and bf (bias entries). -/
def LinearLayer.init (dIn dOut : ℕ) (wf : ℕ → ℕ → ℚ) (bf : ℕ → ℚ) : LinearLayer :=
  ⟨buildMatrix dIn dOut wf, (List.range dOut).map bf⟩

/-- burn's Relu applied elementwise: clamp_min(0), i.e. negative entries are
zeroed and nonnegative entries pass unchanged. -/
def reluEntry (a : ℚ) : ℚ := if a < 0 then 0 else a

/-- burn's Relu on a rank-2 tensor. -/
def reluM (A : Matrix) : Matrix :=
  A.map (fun r => r.map reluEntry)

/-- Map with the element index. -/
def mapWithIdx (f : ℕ → α → β) : List α → List β
  | [] => []
  | a :: l => f 0 a :: mapWithIdx (fun i => f (i + 1)) l

/-- burn's Dropout state: the configured drop probability. -/
structure Dropout where
  prob : ℚ
  deriving DecidableEq

/-- burn Dropout::forward: identity when autodiff is disabled (training off)
or the probability is zero; otherwise multiplies elementwise by a sampled
Bernoulli mask and rescales by 1/(1-prob) (inverted-dropout convention).  The
sampled mask is threaded as an explicit function of the element position. -/
def dropoutForward (rate : ℚ) (training : Bool) (mask : ℕ → ℕ → ℚ) (x : Matrix) : Matrix :=
  if training = false ∨ rate = 0 then x
  else mapWithIdx (fun i row => mapWithIdx (fun j a => a * mask i j * (1 / (1 - rate))) row) x

/-- Tensor::detach: drops the autodiff graph, leaving values unchanged. -/
def detach (x : Matrix) : Matrix := x

/-- burn's LayerNorm parameters: learnable per-feature scale (gamma) and shift
(beta) plus the epsilon constant. -/
structure LayerNormParams where
  gamma : List ℚ
  beta : List ℚ
  epsilon : ℚ
  deriving DecidableEq

/-- Shape predicate: A has r rows, each of width c. -/
def hasShape (A : Matrix) (r c : ℕ) : Prop :=
  A.length = r ∧ ∀ row ∈ A, row.length = c

instance (A : Matrix) (r c : ℕ) : Decidable (hasShape A r c) := by
  unfold hasShape
  infer_instance

namespace Classifier

/-- src/daily_linear_classifier/src/model.rs: INPUT_SIZE. -/
def INPUT_SIZE : ℕ := 23

/-- src/daily_linear_classifier/src/model.rs: HIDDEN_SIZES. -/
def HIDDEN_SIZES : List ℕ := [64, 128, 256, 512, 1024, 2048]

/-- src/daily_linear_classifier/src/model.rs: OUTPUT_SIZE. -/
def OUTPUT_SIZE : ℕ := 2

/-- The classifier Model struct: five linear layers, one dropout policy, a
stateless Relu activation (no data, hence no field). -/
structure Model where
  input_layer : LinearLayer
  ln1 : LinearLayer
  ln2 : LinearLayer
  ln3 : LinearLayer
  output_layer : LinearLayer
  dropout : Dropout
  deriving DecidableEq

/-- Model::new for the classifier: layer widths 23 -> 64 -> 128 -> 128 -> 256
-> 2, dropout probability 0.5.  The random initial parameter values are
threaded as wf (weights, indexed by layer) and bf (biases). -/
def Model.new (wf : ℕ → ℕ → ℕ → ℚ) (bf : ℕ → ℕ → ℚ) : Model :=
  let h1 := HIDDEN_SIZES.getD 0 0
  let h2 := HIDDEN_SIZES.getD 1 0
  let h3 := HIDDEN_SIZES.getD 2 0
  { input_layer := LinearLayer.init INPUT_SIZE h1 (wf 0) (bf 0)
    ln1 := LinearLayer.init h1 h2 (wf 1) (bf 1)
    ln2 := LinearLayer.init h2 h2 (wf 2) (bf 2)
    ln3 := LinearLayer.init h2 h3 (wf 3) (bf 3)
    output_layer := LinearLayer.init h3 OUTPUT_SIZE (wf 4) (bf 4)
    dropout := ⟨1 / 2⟩ }

/-- Model::forward for the classifier: detach, then four blocks of
linear / relu / dropout, then the output linear layer.  The dropout mask is
threaded per call site (mask 0 .. mask 3). -/
def Model.forward (m : Model) (training : Bool) (mask : ℕ → ℕ → ℕ → ℚ)
    (input : Matrix) : Except TensorError Matrix :=
  (m.input_layer.forward (detach input)).bind (fun x1 =>
  (m.ln1.forward (dropoutForward m.dropout.prob training (mask 0) (reluM x1))).bind (fun x2 =>
  (m.ln2.forward (dropoutForward m.dropout.prob training (mask 1) (reluM x2))).bind (fun x3 =>
  (m.ln3.forward (dropoutForward m.dropout.prob training (mask 2) (reluM x3))).bind (fun x4 =>
  m.output_layer.forward (dropoutForward m.dropout.prob training (mask 3) (reluM x4))))))

/-- DailyLinearBatch for the classifier: inputs [B, 23], integer class-id
targets of shape [B]. -/
structure DailyLinearBatch where
  inputs : Matrix
  targets : List ℕ

/-- DailyLinearInferBatch: inputs only. -/
structure DailyLinearInferBatch where
  inputs : Matrix

/-- burn's ClassificationOutput record. -/
structure ClassificationOutput where
  loss : ℚ
  output : Matrix
  targets : List ℕ

/-- Model::forward_step: run forward, compute cross-entropy-with-logits loss
on (output, targets), echo the targets.  The cross-entropy loss value is a
backend computation over logs and exponentials; it is threaded as the
function ce. -/
def Model.forward_step (ce : Matrix → List ℕ → ℚ) (m : Model)
    (item : DailyLinearBatch) (training : Bool) (mask : ℕ → ℕ → ℕ → ℚ) :
    Except TensorError ClassificationOutput :=
  (m.forward training mask item.inputs).map (fun output =>
    ⟨ce output item.targets, output, item.targets⟩)

/-- Model::infer for the classifier: forward on the batch inputs, returning
the raw logits tensor. -/
def Model.infer (m : Model) (item : DailyLinearInferBatch) (training : Bool)
    (mask : ℕ → ℕ → ℕ → ℚ) : Except TensorError Matrix :=
  m.forward training mask item.inputs

/-- burn's TrainOutput: gradients plus the step item. -/
structure TrainOutput (G : Type) (O : Type) where
  grads : G
  item : O

/-- TrainStep::step embedded state-passing: the Rust method borrows the model
immutably (&self, no interior mutability), so the model component of the
result is the receiver.  Dropout is active (autodiff backend).  Reverse-mode
differentiation of the loss is the backend's backward, threaded as a
function. -/
def Model.trainStep {G : Type} (ce : Matrix → List ℕ → ℚ) (backward : ℚ → G)
    (m : Model) (item : DailyLinearBatch) (mask : ℕ → ℕ → ℕ → ℚ) :
    Except TensorError (TrainOutput G ClassificationOutput) × Model :=
  ((m.forward_step ce item true mask).map (fun o => ⟨backward o.loss, o⟩), m)

/-- ValidStep::step embedded state-passing: forward_step with dropout
inactive (plain backend); the model component of the result is the
receiver. -/
def Model.validStep (ce : Matrix → List ℕ → ℚ) (m : Model)
    (item : DailyLinearBatch) (mask : ℕ → ℕ → ℕ → ℚ) :
    Except TensorError ClassificationOutput × Model :=
  (m.forward_step ce item false mask, m)

/-- State-passing view of forward (a &self method: model returned
unchanged). -/
def Model.forwardS (m : Model) (training : Bool) (mask : ℕ → ℕ → ℕ → ℚ)
    (input : Matrix) : Except TensorError Matrix × Model :=
  (m.forward training mask input, m)

/-- State-passing view of forward_step. -/
def Model.forwardStepS (ce : Matrix → List ℕ → ℚ) (m : Model)
    (item : DailyLinearBatch) (training : Bool) (mask : ℕ → ℕ → ℕ → ℚ) :
    Except TensorError ClassificationOutput × Model :=
  (m.forward_step ce item training mask, m)

/-- State-passing view of infer. -/
def Model.inferS (m : Model) (item : DailyLinearInferBatch) (training : Bool)
    (mask : ℕ → ℕ → ℕ → ℚ) : Except TensorError Matrix × Model :=
  (m.infer item training mask, m)

/-- Shapes of a classifier model as fixed by Model::new: 23 -> 64 -> 128 ->
128 -> 256 -> 2. -/
def Model.wellFormed (m : Model) : Prop :=
  hasShape m.input_layer.weight 23 64 ∧ m.input_layer.bias.length = 64 ∧
  hasShape m.ln1.weight 64 128 ∧ m.ln1.bias.length = 128 ∧
  hasShape m.ln2.weight 128 128 ∧ m.ln2.bias.length = 128 ∧
  hasShape m.ln3.weight 128 256 ∧ m.ln3.bias.length = 256 ∧
  hasShape m.output_layer.weight 256 2 ∧ m.output_layer.bias.length = 2

end Classifier

namespace Regression

/-- src/daily_linear_regression/src/model.rs: INPUT_SIZE. -/
def INPUT_SIZE : ℕ := 47

/-- src/daily_linear_regression/src/model.rs: HIDDEN_SIZES. -/
def HIDDEN_SIZES : List ℕ := [64, 128, 256]

/-- src/daily_linear_regression/src/model.rs: OUTPUT_SIZE. -/
def OUTPUT_SIZE : ℕ := 1

/-- The regression Model struct: five linear layers, one dropout policy, the
stateless Relu activation (no data, hence no field), and the LayerNorm
parameters. -/
structure Model where
  input_layer : LinearLayer
  ln1 : LinearLayer
  ln2 : LinearLayer
  ln3 : LinearLayer
  output_layer : LinearLayer
  dropout : Dropout
  layer_norm : LayerNormParams
  deriving DecidableEq

/-- Model::new for the regressor: layer widths 47 -> 64 -> 64 -> 128 -> 128
-> 1, dropout probability 0.33, and a LayerNorm of width h1 = 64 (burn
initialises gamma to ones, beta to zeros, epsilon to 1e-5).  Random initial
parameter values are threaded as wf and bf. -/
def Model.new (wf : ℕ → ℕ → ℕ → ℚ) (bf : ℕ → ℕ → ℚ) : Model :=
  let h1 := HIDDEN_SIZES.getD 0 0
  let h2 := HIDDEN_SIZES.getD 1 0
  { input_layer := LinearLayer.init INPUT_SIZE h1 (wf 0) (bf 0)
    ln1 := LinearLayer.init h1 h1 (wf 1) (bf 1)
    ln2 := LinearLayer.init h1 h2 (wf 2) (bf 2)
    ln3 := LinearLayer.init h2 h2 (wf 3) (bf 3)
    output_layer := LinearLayer.init h2 OUTPUT_SIZE (wf 4) (bf 4)
    dropout := ⟨33 / 100⟩
    layer_norm := ⟨List.replicate h1 1, List.replicate h1 0, 1 / 100000⟩ }

/-- Model::forward for the regressor: detach, then four blocks of
linear / relu / dropout, then the output linear layer.  The layer_norm field
is never read by this function (its body performs exactly the same sequence
of operations as the classifier's forward). -/
def Model.forward (m : Model) (training : Bool) (mask : ℕ → ℕ → ℕ → ℚ)
    (input : Matrix) : Except TensorError Matrix :=
  (m.input_layer.forward (detach input)).bind (fun x1 =>
  (m.ln1.forward (dropoutForward m.dropout.prob training (mask 0) (reluM x1))).bind (fun x2 =>
  (m.ln2.forward (dropoutForward m.dropout.prob training (mask 1) (reluM x2))).bind (fun x3 =>
  (m.ln3.forward (dropoutForward m.dropout.prob training (mask 2) (reluM x3))).bind (fun x4 =>
  m.output_layer.forward (dropoutForward m.dropout.prob training (mask 3) (reluM x4))))))

/-- DailyLinearBatch for the regressor: inputs [B, 47], scalar targets of
shape [B]. -/
structure DailyLinearBatch where
  inputs : Matrix
  targets : List ℚ

/-- DailyLinearInferBatch: inputs only. -/
structure DailyLinearInferBatch where
  inputs : Matrix

/-- burn's RegressionOutput record (targets held as a rank-2 tensor). -/
structure RegressionOutput where
  loss : ℚ
  output : Matrix
  targets : Matrix
  deriving DecidableEq

/-- burn's Tensor::unsqueeze from rank 1 to rank 2: new size-one dimensions
are prepended, so a [B] tensor becomes a [1, B] tensor (a single row). -/
def unsqueeze1to2 (t : List ℚ) : Matrix := [t]

/-- The broadcast of two dimension sizes: equal sizes, or a size-one
dimension stretched to the other, as in burn's elementwise kernels. -/
def broadcastDim (a b : ℕ) : Option ℕ :=
  if a = b then some a else if a = 1 then some b else if b = 1 then some a else none

/-- Entry lookup under broadcasting: a size-one dimension always reads index
0. -/
def broadcastGet (A : Matrix) (i j : ℕ) : ℚ :=
  (A.getD (if numRows A = 1 then 0 else i) []).getD (if numCols A = 1 then 0 else j) 0

/-- burn's broadcasting elementwise subtraction on rank-2 tensors: panics
(here: errors) unless each dimension pair broadcasts. -/
def broadcastSub (A B : Matrix) : Except TensorError Matrix :=
  match broadcastDim (numRows A) (numRows B), broadcastDim (numCols A) (numCols B) with
  | some r, some c =>
      .ok ((List.range r).map (fun i => (List.range c).map (fun j =>
        broadcastGet A i j - broadcastGet B i j)))
  | _, _ => .error .shapeMismatch

/-- burn's MseLoss with Reduction::Mean: square of the (broadcasting)
difference, then the mean over all elements of the resulting tensor. -/
def mseLossMean (logits targets : Matrix) : Except TensorError ℚ :=
  (broadcastSub logits targets).map (fun d =>
    ((d.map (fun row => (row.map (fun a => a * a)).sum)).sum) /
      ((numRows d * numCols d : ℕ) : ℚ))

/-- Model::forward_step for the regressor: unsqueeze the targets to rank 2,
run forward, compute the mean-squared-error loss of (output, unsqueezed
targets), and return the loss, output and unsqueezed targets. -/
def Model.forward_step (m : Model) (item : DailyLinearBatch) (training : Bool)
    (mask : ℕ → ℕ → ℕ → ℚ) : Except TensorError RegressionOutput :=
  (m.forward training mask item.inputs).bind (fun output =>
    (mseLossMean output (unsqueeze1to2 item.targets)).map (fun loss =>
      ⟨loss, output, unsqueeze1to2 item.targets⟩))

/-- Model::infer for the regressor: forward on the batch inputs, then convert
the output tensor's data buffer to a plain vector.  The conversion
(to_data().to_vec()) is a backend materialisation that returns Result in the
source; it is threaded as the function toVec.  The dbg! line in the source
only prints and does not affect the value. -/
def Model.infer (toVec : Matrix → Except DataError (List ℚ)) (m : Model)
    (item : DailyLinearInferBatch) (training : Bool) (mask : ℕ → ℕ → ℕ → ℚ) :
    Except TensorError (Except DataError (List ℚ)) :=
  (m.forward training mask item.inputs).map toVec

/-- burn's TrainOutput: gradients plus the step item. -/
structure TrainOutput (G : Type) (O : Type) where
  grads : G
  item : O

/-- TrainStep::step embedded state-passing: &self receiver, so the model
component of the result is the receiver; dropout active (autodiff backend);
backward threaded as a function. -/
def Model.trainStep {G : Type} (backward : ℚ → G) (m : Model)
    (item : DailyLinearBatch) (mask : ℕ → ℕ → ℕ → ℚ) :
    Except TensorError (TrainOutput G RegressionOutput) × Model :=
  ((m.forward_step item true mask).map (fun o => ⟨backward o.loss, o⟩), m)

/-- ValidStep::step embedded state-passing: forward_step with dropout
inactive; the model component of the result is the receiver. -/
def Model.validStep (m : Model) (item : DailyLinearBatch)
    (mask : ℕ → ℕ → ℕ → ℚ) : Except TensorError RegressionOutput × Model :=
  (m.forward_step item false mask, m)

/-- State-passing view of forward (a &self method: model returned
unchanged). -/
def Model.forwardS (m : Model) (training : Bool) (mask : ℕ → ℕ → ℕ → ℚ)
    (input : Matrix) : Except TensorError Matrix × Model :=
  (m.forward training mask input, m)

/-- State-passing view of forward_step. -/
def Model.forwardStepS (m : Model) (item : DailyLinearBatch) (training : Bool)
    (mask : ℕ → ℕ → ℕ → ℚ) : Except TensorError RegressionOutput × Model :=
  (m.forward_step item training mask, m)

/-- State-passing view of infer. -/
def Model.inferS (toVec : Matrix → Except DataError (List ℚ)) (m : Model)
    (item : DailyLinearInferBatch) (training : Bool) (mask : ℕ → ℕ → ℕ → ℚ) :
    Except TensorError (Except DataError (List ℚ)) × Model :=
  (m.infer toVec item training mask, m)

/-- Shapes of a regression model as fixed by Model::new: 47 -> 64 -> 64 ->
128 -> 128 -> 1. -/
def Model.wellFormed (m : Model) : Prop :=
  hasShape m.input_layer.weight 47 64 ∧ m.input_layer.bias.length = 64 ∧
  hasShape m.ln1.weight 64 64 ∧ m.ln1.bias.length = 64 ∧
  hasShape m.ln2.weight 64 128 ∧ m.ln2.bias.length = 128 ∧
  hasShape m.ln3.weight 128 128 ∧ m.ln3.bias.length = 128 ∧
  hasShape m.output_layer.weight 128 1 ∧ m.output_layer.bias.length = 1

end Regression

/-!
A second definition of the forward pass, following the spec's words
("for each layer in configured order: apply the linear transform, then the
activation, then dropout, in that exact order"; "the final layer is a plain
linear projection with no activation, no dropout, no normalization"), to be
compared with the source-translated forward functions.
-/

/-- The hidden blocks of the spec's MLP: for each hidden layer in configured
order, linear transform, then activation, then dropout. -/
def specHiddenChain (rate : ℚ) (training : Bool) (mask : ℕ → ℕ → ℕ → ℚ) :
    List LinearLayer → ℕ → Matrix → Except TensorError Matrix
  | [], _, x => .ok x
  | l :: ls, i, x =>
      (l.forward x).bind (fun y =>
        specHiddenChain rate training mask ls (i + 1)
          (dropoutForward rate training (mask i) (reluM y)))

/-- The spec's MLP forward: detach the input, run the hidden blocks in
configured order, then apply the final layer as a plain linear projection
(no activation, no dropout, no normalization). -/
def specMLPForward (hidden : List LinearLayer) (outLayer : LinearLayer)
    (rate : ℚ) (training : Bool) (mask : ℕ → ℕ → ℕ → ℚ) (input : Matrix) :
    Except TensorError Matrix :=
  (specHiddenChain rate training mask hidden 0 (detach input)).bind outLayer.forward

/-! Helper lemmas. -/

theorem ok_bind {ε α β : Type} (a : α) (f : α → Except ε β) :
    (Except.ok a : Except ε α).bind f = f a := rfl

theorem error_bind {ε α β : Type} (e : ε) (f : α → Except ε β) :
    (Except.error e : Except ε α).bind f = Except.error e := rfl

theorem mapWithIdx_length (f : ℕ → α → β) (l : List α) :
    (mapWithIdx f l).length = l.length := by
  induction l generalizing f with
  | nil => rfl
  | cons a l ih => simp [mapWithIdx, ih]

theorem mem_mapWithIdx {f : ℕ → α → β} {l : List α} {b : β}
    (h : b ∈ mapWithIdx f l) : ∃ i a, a ∈ l ∧ b = f i a := by
  induction l generalizing f with
  | nil => simp [mapWithIdx] at h
  | cons a l ih =>
      rw [mapWithIdx, List.mem_cons] at h
      rcases h with h | h
      · exact ⟨0, a, List.mem_cons_self a l, h⟩
      · obtain ⟨i, a0, hmem, hEq⟩ := ih h
        exact ⟨i + 1, a0, List.mem_cons_of_mem a hmem, hEq⟩

theorem hasShape_reluM {A : Matrix} {r c : ℕ} (h : hasShape A r c) :
    hasShape (reluM A) r c := by
  obtain ⟨hlen, hrow⟩ := h
  constructor
  · simpa [reluM] using hlen
  · intro row hmem
    rw [reluM, List.mem_map] at hmem
    obtain ⟨row0, hmem0, hEq⟩ := hmem
    subst hEq
    simpa using hrow row0 hmem0

theorem hasShape_dropoutForward {A : Matrix} {r c : ℕ} (h : hasShape A r c)
    (rate : ℚ) (training : Bool) (mask : ℕ → ℕ → ℚ) :
    hasShape (dropoutForward rate training mask A) r c := by
  obtain ⟨hlen, hrow⟩ := h
  rw [dropoutForward]
  split
  · exact ⟨hlen, hrow⟩
  · constructor
    · rw [mapWithIdx_length]
      exact hlen
    · intro row hmem
      obtain ⟨i, a, hmem0, hEq⟩ := mem_mapWithIdx hmem
      subst hEq
      rw [mapWithIdx_length]
      exact hrow a hmem0

theorem numCols_of_hasShape {W : Matrix} {k n : ℕ} (h : hasShape W k n)
    (hk : 0 < k) : numCols W = n := by
  obtain ⟨hlen, hrow⟩ := h
  cases W with
  | nil => simp at hlen; omega
  | cons w ws => exact hrow w (List.mem_cons_self w ws)

theorem matMul_ok {A W : Matrix} {B k n : ℕ} (hA : hasShape A B k)
    (hW : hasShape W k n) :
    matMul A W = .ok (matMulUnchecked A W) := by
  rw [matMul, if_pos]
  intro r hr
  rw [hA.2 r hr, hW.1]

theorem matMulUnchecked_hasShape {A W : Matrix} {B k n : ℕ}
    (hA : hasShape A B k) (hW : hasShape W k n) (hk : 0 < k) :
    hasShape (matMulUnchecked A W) B n := by
  constructor
  · rw [matMulUnchecked, List.length_map]
    exact hA.1
  · intro row hmem
    rw [matMulUnchecked, List.mem_map] at hmem
    obtain ⟨r, _, hEq⟩ := hmem
    subst hEq
    rw [List.length_map, List.length_range, numCols_of_hasShape hW hk]

theorem addBias_ok {A : Matrix} {b : List ℚ} {B n : ℕ} (hA : hasShape A B n)
    (hb : b.length = n) :
    addBias A b = .ok (A.map (fun r => vecAdd r b)) := by
  rw [addBias, if_pos]
  intro r hr
  rw [hA.2 r hr, hb]

theorem addBias_hasShape {A : Matrix} {b : List ℚ} {B n : ℕ}
    (hA : hasShape A B n) (hb : b.length = n) :
    hasShape (A.map (fun r => vecAdd r b)) B n := by
  constructor
  · rw [List.length_map]
    exact hA.1
  · intro row hmem
    rw [List.mem_map] at hmem
    obtain ⟨r, hr, hEq⟩ := hmem
    subst hEq
    rw [vecAdd, List.length_zipWith, hA.2 r hr, hb, min_self]

/-- A linear layer with weight shape [k, n] and bias width n maps a [B, k]
input to an ok [B, n] output. -/
theorem LinearLayer.forward_ok {l : LinearLayer} {A : Matrix} {B k n : ℕ}
    (hA : hasShape A B k) (hw : hasShape l.weight k n) (hb : l.bias.length = n)
    (hk : 0 < k) :
    ∃ C, l.forward A = .ok C ∧ hasShape C B n := by
  refine ⟨(matMulUnchecked A l.weight).map (fun r => vecAdd r l.bias), ?_, ?_⟩
  · rw [LinearLayer.forward, matMul_ok hA hw, ok_bind,
      addBias_ok (matMulUnchecked_hasShape hA hw hk) hb]
  · exact addBias_hasShape (matMulUnchecked_hasShape hA hw hk) hb

theorem buildMatrix_hasShape (r c : ℕ) (f : ℕ → ℕ → ℚ) :
    hasShape (buildMatrix r c f) r c := by
  constructor
  · rw [buildMatrix, List.length_map, List.length_range]
  · intro row hmem
    rw [buildMatrix, List.mem_map] at hmem
    obtain ⟨i, _, hEq⟩ := hmem
    subst hEq
    rw [List.length_map, List.length_range]

theorem init_weight_hasShape (dIn dOut : ℕ) (wf : ℕ → ℕ → ℚ) (bf : ℕ → ℚ) :
    hasShape (LinearLayer.init dIn dOut wf bf).weight dIn dOut :=
  buildMatrix_hasShape dIn dOut wf

theorem init_bias_length (dIn dOut : ℕ) (wf : ℕ → ℕ → ℚ) (bf : ℕ → ℚ) :
    (LinearLayer.init dIn dOut wf bf).bias.length = dOut := by
  rw [LinearLayer.init, List.length_map, List.length_range]

/-- Dropout is the identity whenever training mode is off or the configured
rate is zero. -/
theorem dropoutForward_id {rate : ℚ} {training : Bool}
    (h : training = false ∨ rate = 0) (mask : ℕ → ℕ → ℚ) (x : Matrix) :
    dropoutForward rate training mask x = x := by
  rw [dropoutForward, if_pos h]

theorem Classifier.new_wellFormed_cls (wf : ℕ → ℕ → ℕ → ℚ) (bf : ℕ → ℕ → ℚ) :
    (Classifier.Model.new wf bf).wellFormed := by
  refine ⟨?_, ?_, ?_, ?_, ?_, ?_, ?_, ?_, ?_, ?_⟩ <;>
    first
      | exact init_weight_hasShape _ _ _ _
      | exact init_bias_length _ _ _ _

theorem Regression.new_wellFormed_reg (wf : ℕ → ℕ → ℕ → ℚ) (bf : ℕ → ℕ → ℚ) :
    (Regression.Model.new wf bf).wellFormed := by
  refine ⟨?_, ?_, ?_, ?_, ?_, ?_, ?_, ?_, ?_, ?_⟩ <;>
    first
      | exact init_weight_hasShape _ _ _ _
      | exact init_bias_length _ _ _ _

/-- A well-formed classifier model maps a [B, 23] batch to an ok [B, 2]
output, for every batch size B including 0. -/
theorem Classifier.forward_shape_cls {m : Classifier.Model} (hm : m.wellFormed)
    {x : Matrix} {B : ℕ} (hx : hasShape x B 23) (training : Bool)
    (mask : ℕ → ℕ → ℕ → ℚ) :
    ∃ out, m.forward training mask x = .ok out ∧ hasShape out B 2 := by
  obtain ⟨hw0, hb0, hw1, hb1, hw2, hb2, hw3, hb3, hw4, hb4⟩ := hm
  obtain ⟨c1, e1, s1⟩ := LinearLayer.forward_ok hx hw0 hb0 (by norm_num)
  have s1' := hasShape_dropoutForward (hasShape_reluM s1) m.dropout.prob training (mask 0)
  obtain ⟨c2, e2, s2⟩ := LinearLayer.forward_ok s1' hw1 hb1 (by norm_num)
  have s2' := hasShape_dropoutForward (hasShape_reluM s2) m.dropout.prob training (mask 1)
  obtain ⟨c3, e3, s3⟩ := LinearLayer.forward_ok s2' hw2 hb2 (by norm_num)
  have s3' := hasShape_dropoutForward (hasShape_reluM s3) m.dropout.prob training (mask 2)
  obtain ⟨c4, e4, s4⟩ := LinearLayer.forward_ok s3' hw3 hb3 (by norm_num)
  have s4' := hasShape_dropoutForward (hasShape_reluM s4) m.dropout.prob training (mask 3)
  obtain ⟨c5, e5, s5⟩ := LinearLayer.forward_ok s4' hw4 hb4 (by norm_num)
  refine ⟨c5, ?_, s5⟩
  simp only [Classifier.Model.forward, detach]
  rw [e1, ok_bind, e2, ok_bind, e3, ok_bind, e4, ok_bind, e5]

/-- A well-formed regression model maps a [B, 47] batch to an ok [B, 1]
output, for every batch size B including 0. -/
theorem Regression.forward_shape_reg {m : Regression.Model} (hm : m.wellFormed)
    {x : Matrix} {B : ℕ} (hx : hasShape x B 47) (training : Bool)
    (mask : ℕ → ℕ → ℕ → ℚ) :
    ∃ out, m.forward training mask x = .ok out ∧ hasShape out B 1 := by
  obtain ⟨hw0, hb0, hw1, hb1, hw2, hb2, hw3, hb3, hw4, hb4⟩ := hm
  obtain ⟨c1, e1, s1⟩ := LinearLayer.forward_ok hx hw0 hb0 (by norm_num)
  have s1' := hasShape_dropoutForward (hasShape_reluM s1) m.dropout.prob training (mask 0)
  obtain ⟨c2, e2, s2⟩ := LinearLayer.forward_ok s1' hw1 hb1 (by norm_num)
  have s2' := hasShape_dropoutForward (hasShape_reluM s2) m.dropout.prob training (mask 1)
  obtain ⟨c3, e3, s3⟩ := LinearLayer.forward_ok s2' hw2 hb2 (by norm_num)
  have s3' := hasShape_dropoutForward (hasShape_reluM s3) m.dropout.prob training (mask 2)
  obtain ⟨c4, e4, s4⟩ := LinearLayer.forward_ok s3' hw3 hb3 (by norm_num)
  have s4' := hasShape_dropoutForward (hasShape_reluM s4) m.dropout.prob training (mask 3)
  obtain ⟨c5, e5, s5⟩ := LinearLayer.forward_ok s4' hw4 hb4 (by norm_num)
  refine ⟨c5, ?_, s5⟩
  simp only [Regression.Model.forward, detach]
  rw [e1, ok_bind, e2, ok_bind, e3, ok_bind, e4, ok_bind, e5]

theorem bind_assoc {ε α β γ : Type} (x : Except ε α) (f : α → Except ε β)
    (g : β → Except ε γ) :
    (x.bind f).bind g = x.bind (fun a => (f a).bind g) := by
  cases x <;> rfl

/-- With training off or a zero rate, the classifier forward does not depend
on the dropout mask. -/
theorem Classifier.forward_mask_indep_cls {m : Classifier.Model} {training : Bool}
    (h : training = false ∨ m.dropout.prob = 0)
    (mask1 mask2 : ℕ → ℕ → ℕ → ℚ) (x : Matrix) :
    m.forward training mask1 x = m.forward training mask2 x := by
  simp only [Classifier.Model.forward, dropoutForward_id h]

/-- With training off or a zero rate, the regression forward does not depend
on the dropout mask. -/
theorem Regression.forward_mask_indep_reg {m : Regression.Model} {training : Bool}
    (h : training = false ∨ m.dropout.prob = 0)
    (mask1 mask2 : ℕ → ℕ → ℕ → ℚ) (x : Matrix) :
    m.forward training mask1 x = m.forward training mask2 x := by
  simp only [Regression.Model.forward, dropoutForward_id h]

/-- The classifier's forward is exactly the spec MLP: hidden layers
input_layer, ln1, ln2, ln3 each as linear/relu/dropout in order, then the
output layer as a plain linear projection. -/
theorem Classifier.forward_eq_specMLP_cls (m : Classifier.Model) (training : Bool)
    (mask : ℕ → ℕ → ℕ → ℚ) (x : Matrix) :
    m.forward training mask x =
      specMLPForward [m.input_layer, m.ln1, m.ln2, m.ln3] m.output_layer
        m.dropout.prob training mask x := by
  simp only [Classifier.Model.forward, specMLPForward, specHiddenChain,
    bind_assoc, ok_bind]

/-- The regressor's forward is exactly the spec MLP: hidden layers
input_layer, ln1, ln2, ln3 each as linear/relu/dropout in order, then the
output layer as a plain linear projection. -/
theorem Regression.forward_eq_specMLP_reg (m : Regression.Model) (training : Bool)
    (mask : ℕ → ℕ → ℕ → ℚ) (x : Matrix) :
    m.forward training mask x =
      specMLPForward [m.input_layer, m.ln1, m.ln2, m.ln3] m.output_layer
        m.dropout.prob training mask x := by
  simp only [Regression.Model.forward, specMLPForward, specHiddenChain,
    bind_assoc, ok_bind]

/-- The regression forward never reads the layer_norm field: replacing the
normalization parameters by any others leaves the output unchanged. -/
theorem Regression.forward_layerNorm_indep (m : Regression.Model)
    (p : LayerNormParams) (training : Bool) (mask : ℕ → ℕ → ℕ → ℚ)
    (x : Matrix) :
    Regression.Model.forward { m with layer_norm := p } training mask x =
      m.forward training mask x := rfl

theorem matMul_width_error {A W : Matrix} {w : ℕ} (hne : A ≠ [])
    (hrows : ∀ r ∈ A, r.length = w) (hw : w ≠ W.length) :
    matMul A W = .error .shapeMismatch := by
  rw [matMul, if_neg]
  intro hall
  cases A with
  | nil => exact hne rfl
  | cons r rs =>
      exact hw ((hrows r (List.mem_cons_self r rs)).symm.trans
        (hall r (List.mem_cons_self r rs)))

/-- Feeding the classifier a batch whose width differs from 23 makes forward
fail with a shape mismatch at the first linear layer. -/
theorem Classifier.forward_width_error_cls {m : Classifier.Model}
    (hm : m.wellFormed) {x : Matrix} {w : ℕ} (hne : x ≠ [])
    (hrows : ∀ r ∈ x, r.length = w) (hw : w ≠ 23) (training : Bool)
    (mask : ℕ → ℕ → ℕ → ℚ) :
    m.forward training mask x = .error .shapeMismatch := by
  have hmm : matMul x m.input_layer.weight = .error .shapeMismatch :=
    matMul_width_error hne hrows (by rw [hm.1.1]; exact hw)
  simp only [Classifier.Model.forward, detach, LinearLayer.forward, hmm,
    error_bind]

/-- Feeding the regressor a batch whose width differs from 47 makes forward
fail with a shape mismatch at the first linear layer. -/
theorem Regression.forward_width_error_reg {m : Regression.Model}
    (hm : m.wellFormed) {x : Matrix} {w : ℕ} (hne : x ≠ [])
    (hrows : ∀ r ∈ x, r.length = w) (hw : w ≠ 47) (training : Bool)
    (mask : ℕ → ℕ → ℕ → ℚ) :
    m.forward training mask x = .error .shapeMismatch := by
  have hmm : matMul x m.input_layer.weight = .error .shapeMismatch :=
    matMul_width_error hne hrows (by rw [hm.1.1]; exact hw)
  simp only [Regression.Model.forward, detach, LinearLayer.forward, hmm,
    error_bind]

theorem map_ok {ε α β : Type} (f : α → β) (a : α) :
    (Except.ok a : Except ε α).map f = .ok (f a) := rfl

theorem map_error {ε α β : Type} (f : α → β) (e : ε) :
    (Except.error e : Except ε α).map f = .error e := rfl

/-- The output field of the classifier's forward_step is exactly the result
of forward on the batch inputs. -/
theorem Classifier.forwardStep_output (m : Classifier.Model)
    (ce : Matrix → List ℕ → ℚ) (item : Classifier.DailyLinearBatch)
    (training : Bool) (mask : ℕ → ℕ → ℕ → ℚ) :
    (m.forward_step ce item training mask).map
        Classifier.ClassificationOutput.output =
      m.forward training mask item.inputs := by
  rw [Classifier.Model.forward_step]
  cases m.forward training mask item.inputs <;> rfl

/-- When the regressor's forward_step succeeds, its output field is exactly
the result of forward on the batch inputs. -/
theorem Regression.forwardStep_ok_output {m : Regression.Model}
    {item : Regression.DailyLinearBatch} {training : Bool}
    {mask : ℕ → ℕ → ℕ → ℚ} {o : Regression.RegressionOutput}
    (h : m.forward_step item training mask = .ok o) :
    m.forward training mask item.inputs = .ok o.output := by
  rw [Regression.Model.forward_step] at h
  cases hf : m.forward training mask item.inputs with
  | error e =>
      rw [hf, error_bind] at h
      exact absurd h (by intro hc; cases hc)
  | ok out =>
      rw [hf, ok_bind] at h
      cases hm : Regression.mseLossMean out (Regression.unsqueeze1to2 item.targets) with
      | error e => rw [hm, map_error] at h; cases h
      | ok l =>
          rw [hm, map_ok] at h
          cases h
          rfl

/-! Concrete objects for the closed instances below. -/

/-- The all-zero dropout mask (a concrete randomness source). -/
def zeroMask : ℕ → ℕ → ℕ → ℚ := fun _ _ _ => 0

/-- The all-one dropout mask (a second concrete randomness source). -/
def oneMask : ℕ → ℕ → ℕ → ℚ := fun _ _ _ => 1

/-- The all-zero weight initialiser. -/
def zeroInitW : ℕ → ℕ → ℕ → ℚ := fun _ _ _ => 0

/-- The all-zero bias initialiser. -/
def zeroInitB : ℕ → ℕ → ℚ := fun _ _ => 0

/-- A 1-by-1 identity linear layer. -/
def unitLayer : LinearLayer := ⟨[[1]], [0]⟩

/-- A concrete regression Model value whose layers are all 1-by-1 identity
maps (the source's Linear layers carry their dimensions as runtime tensor
shapes, so this is a legal Model value).  In evaluation mode its forward is
the identity on a [B, 1] batch, which makes the loss pipeline of
forward_step directly observable. -/
def tinyRegModel : Regression.Model :=
  { input_layer := unitLayer, ln1 := unitLayer, ln2 := unitLayer,
    ln3 := unitLayer, output_layer := unitLayer, dropout := ⟨33 / 100⟩,
    layer_norm := ⟨[1], [0], 1 / 100000⟩ }

/-- The regression model with all parameters initialised to zero. -/
def m0reg : Regression.Model := Regression.Model.new zeroInitW zeroInitB

/-- The classifier model with all parameters initialised to zero. -/
def m0cls : Classifier.Model := Classifier.Model.new zeroInitW zeroInitB

/-- Alternative normalization parameters, different from the constructed
ones. -/
def lnAlt : LayerNormParams := ⟨[], [], 0⟩

/-- A concrete [1, 47] batch of zeros. -/
def x47 : Matrix := [List.replicate 47 0]

/-- A concrete [1, 23] batch of zeros. -/
def x23 : Matrix := [List.replicate 23 0]

/-- A concrete [1, 10] batch of zeros (wrong feature width). -/
def row10 : Matrix := [List.replicate 10 0]

/-- A materialisation that succeeds, returning the flattened data buffer. -/
def flattenVec : Matrix → Except DataError (List ℚ) := fun A => .ok A.flatten

/-- A materialisation that fails with a cast error. -/
def failVec : Matrix → Except DataError (List ℚ) := fun _ => .error .castError

/-! Claims. -/

/-- C1 (counterexample): the claim says the regression forward applies the
configured normalization layer after the first hidden layer's linear
transform, so that the forward output depends on it; but at this concrete
model and input, replacing the normalization parameters by entirely
different ones leaves the forward output unchanged — the normalization
layer is not applied. -/
theorem claim_C1_counterexample :
    Regression.Model.forward { m0reg with layer_norm := lnAlt } false zeroMask x47 =
      Regression.Model.forward m0reg false zeroMask x47 ∧
    lnAlt ≠ m0reg.layer_norm := by
  constructor
  · exact Regression.forward_layerNorm_indep m0reg lnAlt false zeroMask x47
  · intro h
    have hg : lnAlt.gamma = m0reg.layer_norm.gamma := by rw [h]
    simp [lnAlt, m0reg, Regression.Model.new, Regression.HIDDEN_SIZES] at hg

/-- C1 (amended): Model::new does construct a normalization layer
(LayerNorm of the first hidden width 64, gamma initialised to ones, beta to
zeros, epsilon 1e-5), but forward never applies it: the forward output is
invariant under arbitrary replacement of the normalization parameters, and
each hidden layer applies only linear, ReLU and dropout. -/
theorem claim_C1_amended_layerNorm_unused :
    (∀ (wf : ℕ → ℕ → ℕ → ℚ) (bf : ℕ → ℕ → ℚ),
      (Regression.Model.new wf bf).layer_norm =
        ⟨List.replicate 64 1, List.replicate 64 0, 1 / 100000⟩) ∧
    (∀ (m : Regression.Model) (p : LayerNormParams) (training : Bool)
      (mask : ℕ → ℕ → ℕ → ℚ) (x : Matrix),
      Regression.Model.forward { m with layer_norm := p } training mask x =
        m.forward training mask x) :=
  ⟨fun _ _ => rfl, Regression.forward_layerNorm_indep⟩

/-- C2: the claim says the 1-D target of shape [B] is reshaped to [B, 1];
but unsqueeze prepends the new dimension, so the targets [3, 4] become the
single-row matrix [[3, 4]] of shape [1, 2] (not [[3], [4]] of shape [2, 1]),
and that [1, 2] tensor is what the loss is computed against: on this
identity model the outputs are [[5], [7]] and the broadcast mean-squared
loss evaluates to 15/2 (the per-example loss would be ((5-3)^2+(7-4)^2)/2
= 13/2). -/
theorem claim_C2_targets_unsqueezed_to_1xB :
    Regression.Model.forward_step tinyRegModel ⟨[[5], [7]], [3, 4]⟩ false zeroMask =
      .ok ⟨15 / 2, [[5], [7]], [[3, 4]]⟩ ∧
    hasShape ([[3, 4]] : Matrix) 1 2 ∧ ¬ hasShape ([[3, 4]] : Matrix) 2 1 := by
  refine ⟨by with_unfolding_all rfl, by decide, by decide⟩

/-- C3: for both variants, forward is exactly the spec MLP pipeline: each
hidden layer (input_layer, ln1, ln2, ln3) in configured order applies
linear transform, then ReLU, then dropout, and the final output layer is a
plain linear projection with no activation, dropout or normalization. -/
theorem claim_C3_layer_order_and_raw_head :
    (∀ (m : Classifier.Model) (training : Bool) (mask : ℕ → ℕ → ℕ → ℚ)
      (x : Matrix),
      m.forward training mask x =
        specMLPForward [m.input_layer, m.ln1, m.ln2, m.ln3] m.output_layer
          m.dropout.prob training mask x) ∧
    (∀ (m : Regression.Model) (training : Bool) (mask : ℕ → ℕ → ℕ → ℚ)
      (x : Matrix),
      m.forward training mask x =
        specMLPForward [m.input_layer, m.ln1, m.ln2, m.ln3] m.output_layer
          m.dropout.prob training mask x) :=
  ⟨Classifier.forward_eq_specMLP_cls, Regression.forward_eq_specMLP_reg⟩

/-- C4: with dropout disabled (training off) in both calls, infer on a
batch's inputs returns the same output tensor as the output field of the
StepOutput computed by evaluate (forward_step) on that batch, for any two
dropout randomness sources; for the regressor, whose infer converts the
tensor, infer returns the conversion of that same output field. -/
theorem claim_C4_infer_evaluate_roundtrip :
    (∀ (m : Classifier.Model) (ce : Matrix → List ℕ → ℚ)
      (item : Classifier.DailyLinearBatch) (mask1 mask2 : ℕ → ℕ → ℕ → ℚ),
      (m.forward_step ce item false mask1).map
          Classifier.ClassificationOutput.output =
        m.infer ⟨item.inputs⟩ false mask2) ∧
    (∀ (m : Regression.Model) (toVec : Matrix → Except DataError (List ℚ))
      (item : Regression.DailyLinearBatch) (mask1 mask2 : ℕ → ℕ → ℕ → ℚ)
      (o : Regression.RegressionOutput),
      m.forward_step item false mask1 = .ok o →
      m.infer toVec ⟨item.inputs⟩ false mask2 = .ok (toVec o.output)) := by
  constructor
  · intro m ce item mask1 mask2
    rw [Classifier.forwardStep_output, Classifier.Model.infer]
    exact Classifier.forward_mask_indep_cls (Or.inl rfl) mask1 mask2 item.inputs
  · intro m toVec item mask1 mask2 o h
    have hf := Regression.forwardStep_ok_output h
    rw [Regression.Model.infer,
      Regression.forward_mask_indep_reg (Or.inl rfl) mask2 mask1 item.inputs, hf,
      map_ok]

/-- C4 witness: the round trip at concrete models, batches and distinct
masks. -/
theorem claim_C4_roundtrip_witness :
    ((m0cls.forward_step (fun _ _ => 0) ⟨x23, [1]⟩ false zeroMask).map
        Classifier.ClassificationOutput.output =
      m0cls.infer ⟨x23⟩ false oneMask) ∧
    Regression.Model.infer flattenVec tinyRegModel ⟨[[5]]⟩ false oneMask =
      .ok (flattenVec [[5]]) := by
  constructor
  · exact claim_C4_infer_evaluate_roundtrip.1 m0cls (fun _ _ => 0) ⟨x23, [1]⟩
      zeroMask oneMask
  · exact claim_C4_infer_evaluate_roundtrip.2 tinyRegModel flattenVec
      ⟨[[5]], [5]⟩ zeroMask oneMask ⟨0, [[5]], [[5]]⟩
      (by with_unfolding_all rfl)

/-- C5: for every batch size B (including 0), a well-formed classifier maps
a [B, 23] input to an ok [B, 2] output and a well-formed regressor maps a
[B, 47] input to an ok [B, 1] output; no error is raised. -/
theorem claim_C5_forward_shape :
    (∀ (m : Classifier.Model) (training : Bool) (mask : ℕ → ℕ → ℕ → ℚ)
      (B : ℕ) (x : Matrix), m.wellFormed → hasShape x B 23 →
      ∃ out, m.forward training mask x = .ok out ∧ hasShape out B 2) ∧
    (∀ (m : Regression.Model) (training : Bool) (mask : ℕ → ℕ → ℕ → ℚ)
      (B : ℕ) (x : Matrix), m.wellFormed → hasShape x B 47 →
      ∃ out, m.forward training mask x = .ok out ∧ hasShape out B 1) :=
  ⟨fun _ training mask _ _ hm hx => Classifier.forward_shape_cls hm hx training mask,
   fun _ training mask _ _ hm hx => Regression.forward_shape_reg hm hx training mask⟩

/-- C5 witness: the empty batch B = 0 produces an empty [0, output_size]
output without error, for both freshly constructed models. -/
theorem claim_C5_forward_shape_witness :
    (∃ out, m0cls.forward false zeroMask [] = .ok out ∧ hasShape out 0 2) ∧
    (∃ out, m0reg.forward false zeroMask [] = .ok out ∧ hasShape out 0 1) :=
  ⟨claim_C5_forward_shape.1 m0cls false zeroMask 0 []
      (Classifier.new_wellFormed_cls zeroInitW zeroInitB) (by decide),
   claim_C5_forward_shape.2 m0reg false zeroMask 0 []
      (Regression.new_wellFormed_reg zeroInitW zeroInitB) (by decide)⟩

/-- C6: the claim says the loss of the regression forward_step is the mean
of squared per-example differences, hence 0 when output equals targets
elementwise; but the loss is computed between the [B, 1] output and the
[1, B] unsqueezed targets, broadcasting to a [B, B] difference matrix: on
this identity model the output [[0], [1]] equals the targets [0, 1]
elementwise, yet the computed loss is 1/2, not 0. -/
theorem claim_C6_loss_nonzero_on_equal_output :
    Regression.Model.forward_step tinyRegModel ⟨[[0], [1]], [0, 1]⟩ false zeroMask =
      .ok ⟨1 / 2, [[0], [1]], [[0, 1]]⟩ ∧
    ([[0], [1]] : Matrix) = List.map (fun t => [t]) [0, 1] ∧
    (1 / 2 : ℚ) ≠ 0 := by
  refine ⟨by with_unfolding_all rfl, rfl, by norm_num⟩

/-- C7: with dropout rate 0 or training mode off, forward is deterministic:
it does not depend on the dropout randomness source, so two calls with the
same parameters and input agree, for both variants. -/
theorem claim_C7_forward_deterministic :
    (∀ (m : Classifier.Model) (training : Bool),
      training = false ∨ m.dropout.prob = 0 →
      ∀ (mask1 mask2 : ℕ → ℕ → ℕ → ℚ) (x : Matrix),
      m.forward training mask1 x = m.forward training mask2 x) ∧
    (∀ (m : Regression.Model) (training : Bool),
      training = false ∨ m.dropout.prob = 0 →
      ∀ (mask1 mask2 : ℕ → ℕ → ℕ → ℚ) (x : Matrix),
      m.forward training mask1 x = m.forward training mask2 x) :=
  ⟨fun _ _ h mask1 mask2 x => Classifier.forward_mask_indep_cls h mask1 mask2 x,
   fun _ _ h mask1 mask2 x => Regression.forward_mask_indep_reg h mask1 mask2 x⟩

/-- C7 witness: two calls with different randomness sources agree at
concrete models and inputs when training is off. -/
theorem claim_C7_forward_deterministic_witness :
    m0cls.forward false zeroMask x23 = m0cls.forward false oneMask x23 ∧
    m0reg.forward false zeroMask x47 = m0reg.forward false oneMask x47 :=
  ⟨claim_C7_forward_deterministic.1 m0cls false (Or.inl rfl) zeroMask oneMask x23,
   claim_C7_forward_deterministic.2 m0reg false (Or.inl rfl) zeroMask oneMask x47⟩

/-- C8: whenever the regressor's forward succeeds, infer returns exactly the
materialisation result of the computed output: the converted vector when
the data buffer materialises, the explicit error when it does not — never a
fabricated value — and the materialisation result has exactly the two
outcomes ok or error. -/
theorem claim_C8_infer_error_propagation :
    ∀ (m : Regression.Model) (toVec : Matrix → Except DataError (List ℚ))
      (item : Regression.DailyLinearInferBatch) (training : Bool)
      (mask : ℕ → ℕ → ℕ → ℚ) (out : Matrix),
      m.forward training mask item.inputs = .ok out →
      m.infer toVec item training mask = .ok (toVec out) ∧
      (∀ v, toVec out = .ok v →
        m.infer toVec item training mask = .ok (.ok v)) ∧
      (∀ e, toVec out = .error e →
        m.infer toVec item training mask = .ok (.error e)) ∧
      ((∃ v, toVec out = .ok v) ∨ (∃ e, toVec out = .error e)) := by
  intro m toVec item training mask out h
  have hinf : m.infer toVec item training mask = .ok (toVec out) := by
    rw [Regression.Model.infer, h, map_ok]
  refine ⟨hinf, ?_, ?_, ?_⟩
  · intro v hv
    rw [hinf, hv]
  · intro e he
    rw [hinf, he]
  · cases hv : toVec out with
    | ok v => exact Or.inl ⟨v, rfl⟩
    | error e => exact Or.inr ⟨e, rfl⟩

/-- C8 witness: at a concrete model and input, a succeeding materialisation
yields the converted vector and a failing one yields its error. -/
theorem claim_C8_infer_error_propagation_witness :
    Regression.Model.infer flattenVec tinyRegModel ⟨[[2]]⟩ false zeroMask =
      .ok (.ok [2]) ∧
    Regression.Model.infer failVec tinyRegModel ⟨[[2]]⟩ false zeroMask =
      .ok (.error .castError) :=
  ⟨(claim_C8_infer_error_propagation tinyRegModel flattenVec ⟨[[2]]⟩ false
      zeroMask [[2]] (by with_unfolding_all rfl)).2.1 [2] rfl,
   (claim_C8_infer_error_propagation tinyRegModel failVec ⟨[[2]]⟩ false
      zeroMask [[2]] (by with_unfolding_all rfl)).2.2.1 .castError rfl⟩

/-- C9: feeding forward a non-empty batch whose feature width differs from
the configured input size (23 for the classifier, 47 for the regressor)
raises a shape-mismatch error — no output is produced. -/
theorem claim_C9_width_mismatch_error :
    (∀ (m : Classifier.Model), m.wellFormed → ∀ (x : Matrix) (w : ℕ),
      x ≠ [] → (∀ r ∈ x, r.length = w) → w ≠ 23 →
      ∀ (training : Bool) (mask : ℕ → ℕ → ℕ → ℚ),
      m.forward training mask x = .error .shapeMismatch) ∧
    (∀ (m : Regression.Model), m.wellFormed → ∀ (x : Matrix) (w : ℕ),
      x ≠ [] → (∀ r ∈ x, r.length = w) → w ≠ 47 →
      ∀ (training : Bool) (mask : ℕ → ℕ → ℕ → ℚ),
      m.forward training mask x = .error .shapeMismatch) :=
  ⟨fun _ hm _ _ hne hrows hw training mask =>
      Classifier.forward_width_error_cls hm hne hrows hw training mask,
   fun _ hm _ _ hne hrows hw training mask =>
      Regression.forward_width_error_reg hm hne hrows hw training mask⟩

/-- C9 witness: a [1, 10] batch raises a shape mismatch on both freshly
constructed models. -/
theorem claim_C9_width_mismatch_error_witness :
    m0cls.forward false zeroMask row10 = .error .shapeMismatch ∧
    m0reg.forward false zeroMask row10 = .error .shapeMismatch :=
  ⟨claim_C9_width_mismatch_error.1 m0cls
      (Classifier.new_wellFormed_cls zeroInitW zeroInitB) row10 10 (by decide)
      (by decide) (by decide) false zeroMask,
   claim_C9_width_mismatch_error.2 m0reg
      (Regression.new_wellFormed_reg zeroInitW zeroInitB) row10 10 (by decide)
      (by decide) (by decide) false zeroMask⟩

/-- C10: no model operation mutates the model.  The source's methods all
take the receiver by immutable borrow and its parameter types have no
interior mutability, embedded here as state passing: for forward,
forward_step, infer, TrainStep::step and ValidStep::step, in both variants,
the model after the call is the model before the call
(in particular every weight, bias and normalization parameter is
unchanged). -/
theorem claim_C10_no_mutation :
    (∀ (m : Classifier.Model) (training : Bool) (mask : ℕ → ℕ → ℕ → ℚ)
      (x : Matrix), (m.forwardS training mask x).2 = m) ∧
    (∀ (m : Classifier.Model) (ce : Matrix → List ℕ → ℚ)
      (item : Classifier.DailyLinearBatch) (training : Bool)
      (mask : ℕ → ℕ → ℕ → ℚ), (m.forwardStepS ce item training mask).2 = m) ∧
    (∀ (m : Classifier.Model) (item : Classifier.DailyLinearInferBatch)
      (training : Bool) (mask : ℕ → ℕ → ℕ → ℚ),
      (m.inferS item training mask).2 = m) ∧
    (∀ (G : Type) (ce : Matrix → List ℕ → ℚ) (backward : ℚ → G)
      (m : Classifier.Model) (item : Classifier.DailyLinearBatch)
      (mask : ℕ → ℕ → ℕ → ℚ), (m.trainStep ce backward item mask).2 = m) ∧
    (∀ (m : Classifier.Model) (ce : Matrix → List ℕ → ℚ)
      (item : Classifier.DailyLinearBatch) (mask : ℕ → ℕ → ℕ → ℚ),
      (m.validStep ce item mask).2 = m) ∧
    (∀ (m : Regression.Model) (training : Bool) (mask : ℕ → ℕ → ℕ → ℚ)
      (x : Matrix), (m.forwardS training mask x).2 = m) ∧
    (∀ (m : Regression.Model) (item : Regression.DailyLinearBatch)
      (training : Bool) (mask : ℕ → ℕ → ℕ → ℚ),
      (m.forwardStepS item training mask).2 = m) ∧
    (∀ (toVec : Matrix → Except DataError (List ℚ)) (m : Regression.Model)
      (item : Regression.DailyLinearInferBatch) (training : Bool)
      (mask : ℕ → ℕ → ℕ → ℚ), (m.inferS toVec item training mask).2 = m) ∧
    (∀ (G : Type) (backward : ℚ → G) (m : Regression.Model)
      (item : Regression.DailyLinearBatch) (mask : ℕ → ℕ → ℕ → ℚ),
      (m.trainStep backward item mask).2 = m) ∧
    (∀ (m : Regression.Model) (item : Regression.DailyLinearBatch)
      (mask : ℕ → ℕ → ℕ → ℚ), (m.validStep item mask).2 = m) :=
  ⟨fun _ _ _ _ => rfl, fun _ _ _ _ _ => rfl, fun _ _ _ _ => rfl,
   fun _ _ _ _ _ _ => rfl, fun _ _ _ _ => rfl, fun _ _ _ _ => rfl,
   fun _ _ _ _ => rfl, fun _ _ _ _ _ => rfl, fun _ _ _ _ _ => rfl,
   fun _ _ _ => rfl⟩

end Trado
